import Mathlib

/-!
Shallow embedding of the countries-app backend (Express + SQLite).

The store is modelled as lists of rows together with the AUTOINCREMENT
counters; SQL statements become functions on the store, returning
`Except String` to mirror the `(err, …)` callback shape of the sqlite3
API; each route handler matches on that result exactly as the source
matches on `err`.  Timestamps (`CURRENT_TIMESTAMP`) are passed in as an
explicit `now : Nat` parameter.
-/

namespace CountriesApp

/-- A row of the `users` table (`db.js`): id PRIMARY KEY AUTOINCREMENT,
username UNIQUE NOT NULL, email UNIQUE NOT NULL, created_at. -/
structure UserRow where
  id : Nat
  username : String
  email : String
  created_at : Nat
deriving Repr, DecidableEq

/-- A row of the `wishlist` table (`db.js`): id PRIMARY KEY AUTOINCREMENT,
user_id, country_code, country_name, rating INTEGER DEFAULT 0 (nullable),
notes TEXT (nullable), added_date, UNIQUE(user_id, country_code).
Nullable columns are `Option`. -/
structure WishRow where
  id : Nat
  user_id : Nat
  country_code : String
  country_name : String
  rating : Option Int
  notes : Option String
  added_date : Nat
deriving Repr, DecidableEq

/-- The database: both tables plus the AUTOINCREMENT counters. -/
structure Store where
  users : List UserRow
  wishlist : List WishRow
  nextUserId : Nat
  nextWishId : Nat
deriving Repr, DecidableEq

/-- A fresh database file, before `db.js` initialization runs. -/
def emptyStore : Store := ⟨[], [], 1, 1⟩

/-- `WHERE user_id = ? AND country_code = ?`, the row filter shared by the
PUT and DELETE statements and by the UNIQUE(user_id, country_code) check. -/
def wmatch (uid : Nat) (code : String) (r : WishRow) : Bool :=
  r.user_id == uid && r.country_code == code

/-- Response of an express handler that touches the store: HTTP status,
JSON body (`Except` error message), and the store afterwards. -/
structure HOut (β : Type) where
  status : Nat
  body : Except String β
  store : Store
deriving Repr

/-! ### wishlist routes (`routes/wishlist.js`) -/

/-- `b.added_date ≤ a.added_date`: the `ORDER BY added_date DESC` order. -/
def addedDesc (a b : WishRow) : Prop := b.added_date ≤ a.added_date

instance : DecidableRel addedDesc := fun a b => Nat.decLe b.added_date a.added_date

instance : IsTotal WishRow addedDesc :=
  ⟨fun a b => Nat.le_total b.added_date a.added_date⟩

instance : IsTrans WishRow addedDesc :=
  ⟨fun _ _ _ h h' => Nat.le_trans h' h⟩

/-- `SELECT * FROM wishlist WHERE user_id = ? ORDER BY added_date DESC`. -/
def selectWishlist (s : Store) (uid : Nat) : List WishRow :=
  List.insertionSort addedDesc (s.wishlist.filter (fun r => r.user_id == uid))

/-- `GET /api/wishlist/:userId`: the SELECT cannot fail in this model, so
the handler always answers 200 with the rows. -/
def getWishlistHandler (s : Store) (uid : Nat) : HOut (List WishRow) :=
  ⟨200, .ok (selectWishlist s uid), s⟩

/-- Request body of `POST /api/wishlist/:userId`; `rating` and `notes`
may be absent (`undefined`), in which case the handler substitutes
`rating || 0` and `notes || ''`. -/
structure PostWishBody where
  country_code : String
  country_name : String
  rating : Option Int
  notes : Option String
deriving Repr, DecidableEq

/-- The JSON object the POST handler answers with on success. -/
structure PostWishResp where
  id : Nat
  user_id : Nat
  country_code : String
  country_name : String
  rating : Int
  notes : String
deriving Repr, DecidableEq

/-- `INSERT INTO wishlist (user_id, country_code, country_name, rating, notes)
VALUES (?, ?, ?, ?, ?)` with `rating || 0` and `notes || ''`: fails on the
UNIQUE(user_id, country_code) constraint, otherwise appends the new row and
returns it together with `lastID`. -/
def runInsertWish (s : Store) (uid : Nat) (b : PostWishBody) (now : Nat) :
    Except String (Store × WishRow) :=
  if s.wishlist.any (wmatch uid b.country_code) then
    .error "UNIQUE constraint failed: wishlist.user_id, wishlist.country_code"
  else
    let row : WishRow :=
      ⟨s.nextWishId, uid, b.country_code, b.country_name,
        some (b.rating.getD 0), some (b.notes.getD ""), now⟩
    .ok ({ s with wishlist := s.wishlist ++ [row], nextWishId := s.nextWishId + 1 }, row)

/-- `POST /api/wishlist/:userId`: on `err` answers 400 with the message and
leaves the store alone; on success answers the echoed JSON object. -/
def postWishlistHandler (s : Store) (uid : Nat) (b : PostWishBody) (now : Nat) :
    HOut PostWishResp :=
  match runInsertWish s uid b now with
  | .error e => ⟨400, .error e, s⟩
  | .ok (s', row) =>
      ⟨200, .ok ⟨row.id, uid, b.country_code, b.country_name,
        b.rating.getD 0, b.notes.getD ""⟩, s'⟩

/-- `UPDATE wishlist SET rating = ?, notes = ? WHERE user_id = ? AND
country_code = ?`: total in this model (no constraint can fail), returns the
new store and `this.changes`. -/
def runUpdateWish (s : Store) (uid : Nat) (code : String)
    (rating : Option Int) (notes : Option String) : Except String (Store × Nat) :=
  .ok ({ s with wishlist := s.wishlist.map (fun r =>
          if wmatch uid code r then { r with rating := rating, notes := notes } else r) },
        (s.wishlist.filter (wmatch uid code)).length)

/-- `PUT /api/wishlist/:userId/:countryCode`: on `err` answers 400 with the
message; on success answers `{ updated: this.changes }`. -/
def putWishlistHandler (s : Store) (uid : Nat) (code : String)
    (rating : Option Int) (notes : Option String) : HOut Nat :=
  match runUpdateWish s uid code rating notes with
  | .error e => ⟨400, .error e, s⟩
  | .ok (s', changes) => ⟨200, .ok changes, s'⟩

/-- `DELETE FROM wishlist WHERE user_id = ? AND country_code = ?`: total in
this model, returns the new store and `this.changes`. -/
def runDeleteWish (s : Store) (uid : Nat) (code : String) :
    Except String (Store × Nat) :=
  .ok ({ s with wishlist := s.wishlist.filter (fun r => !(wmatch uid code r)) },
        (s.wishlist.filter (wmatch uid code)).length)

/-- `DELETE /api/wishlist/:userId/:countryCode`: on `err` answers 400 with
the message; on success answers `{ deleted: this.changes }`. -/
def deleteWishlistHandler (s : Store) (uid : Nat) (code : String) : HOut Nat :=
  match runDeleteWish s uid code with
  | .error e => ⟨400, .error e, s⟩
  | .ok (s', changes) => ⟨200, .ok changes, s'⟩

/-! ### users routes (`routes/users.js`) -/

/-- `SELECT * FROM users WHERE id = ?` via `db.get`: the first matching row. -/
def selectUser (s : Store) (id : Nat) : Option UserRow :=
  s.users.find? (fun u => u.id == id)

/-- `GET /api/users/:id`: answers the row, or `{}` (`row || {}`) encoded as
`none`, with status 200; the 500 error branch is dead in this model. -/
def getUserHandler (s : Store) (id : Nat) : HOut (Option UserRow) :=
  ⟨200, .ok (selectUser s id), s⟩

/-- `INSERT INTO users (username, email) VALUES (?, ?)`: fails on the UNIQUE
constraints of username and email, otherwise appends the row and returns
`lastID`. -/
def runInsertUser (s : Store) (username email : String) (now : Nat) :
    Except String (Store × Nat) :=
  if s.users.any (fun u => u.username == username) then
    .error "UNIQUE constraint failed: users.username"
  else if s.users.any (fun u => u.email == email) then
    .error "UNIQUE constraint failed: users.email"
  else
    let row : UserRow := ⟨s.nextUserId, username, email, now⟩
    .ok ({ s with users := s.users ++ [row], nextUserId := s.nextUserId + 1 },
      s.nextUserId)

/-- The JSON object the user POST handler answers with on success. -/
structure PostUserResp where
  id : Nat
  username : String
  email : String
deriving Repr, DecidableEq

/-- `POST /api/users`: on `err` answers 400 with the message and leaves the
store alone; on success answers `{ id: this.lastID, username, email }`. -/
def postUserHandler (s : Store) (username email : String) (now : Nat) :
    HOut PostUserResp :=
  match runInsertUser s username email now with
  | .error e => ⟨400, .error e, s⟩
  | .ok (s', newId) => ⟨200, .ok ⟨newId, username, email⟩, s'⟩

/-! ### countries proxy (`server.js`) -/

/-- Response of a proxy endpoint: status and either the passed-through JSON
text or the fixed error message. -/
structure ProxyOut where
  status : Nat
  body : Except String String
deriving Repr

/-- `GET /api/countries`: the outcome of the outbound axios call is the
parameter (`some data` on success, `none` when it throws); success passes
`response.data` through, failure answers 500 `Failed to fetch countries`. -/
def getCountriesHandler (fetched : Option String) : ProxyOut :=
  match fetched with
  | some data => ⟨200, .ok data⟩
  | none => ⟨500, .error "Failed to fetch countries"⟩

/-- `GET /api/countries/search/:name`: pass-through on success, otherwise
404 `Country not found`. -/
def searchCountriesHandler (_name : String) (fetched : Option String) : ProxyOut :=
  match fetched with
  | some data => ⟨200, .ok data⟩
  | none => ⟨404, .error "Country not found"⟩

/-- `GET /api/countries/region/:region`: pass-through on success, otherwise
404 `Region not found`. -/
def regionCountriesHandler (_region : String) (fetched : Option String) : ProxyOut :=
  match fetched with
  | some data => ⟨200, .ok data⟩
  | none => ⟨404, .error "Region not found"⟩

/-! ### schema initialization (`db.js`) -/

/-- Whether the demo seed INSERT OR IGNORE would hit a UNIQUE constraint:
some user already takes the username or the email. -/
def hasDemo (s : Store) : Bool :=
  s.users.any (fun u => u.username == "demo" || u.email == "demo@example.com")

/-- The `db.serialize` block of `db.js`: the two CREATE TABLE IF NOT EXISTS
statements keep existing rows, and `INSERT OR IGNORE INTO users (username,
email) VALUES ('demo', 'demo@example.com')` inserts the seed row unless a
UNIQUE constraint would fire. -/
def initDb (s : Store) (now : Nat) : Store :=
  if hasDemo s then s
  else
    let row : UserRow := ⟨s.nextUserId, "demo", "demo@example.com", now⟩
    { s with users := s.users ++ [row], nextUserId := s.nextUserId + 1 }

/-- Running initialization once per element of `nows` (each run at its own
timestamp). -/
def initMany : Store → List Nat → Store
  | s, [] => s
  | s, n :: ns => initMany (initDb s n) ns

/-- Number of demo seed rows in the users table. -/
def demoCount (s : Store) : Nat :=
  (s.users.filter (fun u => u.username == "demo" && u.email == "demo@example.com")).length

/-- The invariant maintained by UNIQUE(user_id, country_code): no two
wishlist rows share the (user id, country code) pair. -/
def uniquePairs (s : Store) : Prop :=
  s.wishlist.Pairwise (fun a b => a.user_id ≠ b.user_id ∨ a.country_code ≠ b.country_code)

/-! ### Helper lemmas -/

/-- `wmatch` unpacked into propositional equalities. -/
theorem wmatch_iff (uid : Nat) (code : String) (r : WishRow) :
    wmatch uid code r = true ↔ r.user_id = uid ∧ r.country_code = code := by
  simp [wmatch]

/-- A concrete store used to instantiate hypothetical theorems: the demo
user with one wishlist row (France). -/
def demoStore : Store :=
  ⟨[⟨1, "demo", "demo@example.com", 0⟩],
   [⟨1, 1, "FR", "France", some 0, some "", 5⟩], 2, 2⟩

/-! ### Claims -/

/-- C1: posting a (user, country) pair that already has a wishlist row is
rejected by the UNIQUE(user_id, country_code) constraint: the handler
answers 400 with the constraint message and leaves the store untouched;
and a store with at most one row per pair still has at most one row per
pair after any POST. -/
theorem post_duplicate_rejected (s : Store) (uid : Nat) (b : PostWishBody) (now : Nat)
    (h : uniquePairs s) :
    uniquePairs (postWishlistHandler s uid b now).store ∧
    (∀ r ∈ s.wishlist, r.user_id = uid → r.country_code = b.country_code →
      (postWishlistHandler s uid b now).status = 400 ∧
      (postWishlistHandler s uid b now).body =
        Except.error "UNIQUE constraint failed: wishlist.user_id, wishlist.country_code" ∧
      (postWishlistHandler s uid b now).store = s) := by
  unfold postWishlistHandler runInsertWish
  by_cases hdup : s.wishlist.any (wmatch uid b.country_code) = true
  · simp only [hdup, if_true]
    exact ⟨h, fun r _ _ _ => ⟨trivial, trivial, trivial⟩⟩
  · rw [Bool.not_eq_true] at hdup
    simp only [hdup, Bool.false_eq_true, if_false]
    rw [List.any_eq_false] at hdup
    constructor
    · unfold uniquePairs at h ⊢
      simp only [List.pairwise_append, List.pairwise_cons, List.mem_singleton]
      refine ⟨h, by simp, ?_⟩
      intro a ha c hc
      subst hc
      have hna := hdup a ha
      rw [wmatch_iff] at hna
      show a.user_id ≠ uid ∨ a.country_code ≠ b.country_code
      by_cases hu : a.user_id = uid
      · exact Or.inr fun hcc => hna ⟨hu, hcc⟩
      · exact Or.inl hu
    · intro r hr hu hc
      exact absurd ((wmatch_iff uid b.country_code r).mpr ⟨hu, hc⟩) (hdup r hr)

/-- C1 witness: the demo store already holds (1, FR), so posting it again
answers 400 with the constraint message and changes nothing. -/
theorem post_duplicate_rejected_witness :
    (postWishlistHandler demoStore 1 ⟨"FR", "France", none, none⟩ 9).status = 400 ∧
    (postWishlistHandler demoStore 1 ⟨"FR", "France", none, none⟩ 9).store = demoStore :=
  have h := post_duplicate_rejected demoStore 1 ⟨"FR", "France", none, none⟩ 9
    (List.pairwise_singleton _ _)
  have h2 := h.2 ⟨1, 1, "FR", "France", some 0, some "", 5⟩ (by decide) rfl rfl
  ⟨h2.1, h2.2.2⟩

/-- C2: GET /api/wishlist/:userId answers 200 with exactly the rows whose
user_id matches, ordered by added date descending. -/
theorem get_wishlist_sorted (s : Store) (uid : Nat) :
    (getWishlistHandler s uid).status = 200 ∧
    (getWishlistHandler s uid).body = Except.ok (selectWishlist s uid) ∧
    (selectWishlist s uid).Perm (s.wishlist.filter (fun r => r.user_id == uid)) ∧
    List.Sorted addedDesc (selectWishlist s uid) ∧
    (∀ r, r ∈ selectWishlist s uid ↔ r ∈ s.wishlist ∧ r.user_id = uid) := by
  refine ⟨rfl, rfl, List.perm_insertionSort _ _, List.sorted_insertionSort _ _, fun r => ?_⟩
  unfold selectWishlist
  rw [(List.perm_insertionSort addedDesc _).mem_iff, List.mem_filter]
  simp

/-- C3: when no row with the pair exists the POST succeeds; the created row
and the echoed response carry rating 0 and notes `""` when the body omits
them, and the supplied values when it does not. -/
theorem post_rating_notes_defaults (s : Store) (uid : Nat) (b : PostWishBody) (now : Nat)
    (h : ∀ r ∈ s.wishlist, wmatch uid b.country_code r = false) :
    (postWishlistHandler s uid b now).status = 200 ∧
    ∃ row : WishRow, ∃ resp : PostWishResp,
      (postWishlistHandler s uid b now).store.wishlist = s.wishlist ++ [row] ∧
      (postWishlistHandler s uid b now).body = Except.ok resp ∧
      row.user_id = uid ∧ row.country_code = b.country_code ∧
      row.country_name = b.country_name ∧ row.added_date = now ∧
      (b.rating = none → row.rating = some 0 ∧ resp.rating = 0) ∧
      (∀ v, b.rating = some v → row.rating = some v ∧ resp.rating = v) ∧
      (b.notes = none → row.notes = some "" ∧ resp.notes = "") ∧
      (∀ t, b.notes = some t → row.notes = some t ∧ resp.notes = t) := by
  have hdup : s.wishlist.any (wmatch uid b.country_code) = false :=
    List.any_eq_false.mpr (fun x hx => by rw [h x hx]; exact fun hc => (Bool.false_ne_true hc))
  unfold postWishlistHandler runInsertWish
  simp only [hdup, Bool.false_eq_true, if_false]
  refine ⟨trivial, ⟨s.nextWishId, uid, b.country_code, b.country_name,
    some (b.rating.getD 0), some (b.notes.getD ""), now⟩,
    ⟨s.nextWishId, uid, b.country_code, b.country_name,
      b.rating.getD 0, b.notes.getD ""⟩, rfl, rfl, rfl, rfl, rfl, rfl, ?_, ?_, ?_, ?_⟩
  · intro hr; rw [hr]; exact ⟨rfl, rfl⟩
  · intro v hv; rw [hv]; exact ⟨rfl, rfl⟩
  · intro hn; rw [hn]; exact ⟨rfl, rfl⟩
  · intro t ht; rw [ht]; exact ⟨rfl, rfl⟩

/-- C3 witness: posting Japan with no rating/notes to the demo store
answers 200 with rating 0 and notes empty. -/
theorem post_rating_notes_defaults_witness :
    (postWishlistHandler demoStore 1 ⟨"JP", "Japan", none, none⟩ 9).status = 200 :=
  (post_rating_notes_defaults demoStore 1 ⟨"JP", "Japan", none, none⟩ 9
    (by intro r hr; simp only [demoStore, List.mem_singleton] at hr; rw [hr]; rfl)).1

/-- C4: deleting a pair with no matching row answers 200 with
`{ deleted: 0 }` and leaves the store unchanged. -/
theorem delete_missing_reports_zero (s : Store) (uid : Nat) (code : String)
    (h : ∀ r ∈ s.wishlist, wmatch uid code r = false) :
    deleteWishlistHandler s uid code = ⟨200, Except.ok 0, s⟩ := by
  unfold deleteWishlistHandler runDeleteWish
  have hkeep : s.wishlist.filter (fun r => !(wmatch uid code r)) = s.wishlist :=
    List.filter_eq_self.mpr (fun r hr => by rw [h r hr]; rfl)
  have hgone : s.wishlist.filter (wmatch uid code) = [] :=
    List.filter_eq_nil_iff.mpr (fun r hr => by rw [h r hr]; exact Bool.false_ne_true)
  simp only [hkeep, hgone, List.length_nil]

/-- C4 witness: deleting (1, JP), absent from the demo store, answers
`{ deleted: 0 }` without touching the store. -/
theorem delete_missing_reports_zero_witness :
    deleteWishlistHandler demoStore 1 "JP" = ⟨200, Except.ok 0, demoStore⟩ :=
  delete_missing_reports_zero demoStore 1 "JP"
    (by intro r hr; simp only [demoStore, List.mem_singleton] at hr; rw [hr]; rfl)

/-- C5: PUT answers 200 and rewrites exactly the rows matching (user id,
country code): a matching row keeps its id, user_id, country_code,
country_name and added_date and takes the body's rating and notes; a
non-matching row is untouched; no row is added or removed and the users
table is unchanged. -/
theorem put_updates_only_matching (s : Store) (uid : Nat) (code : String)
    (rating : Option Int) (notes : Option String) :
    (putWishlistHandler s uid code rating notes).status = 200 ∧
    (putWishlistHandler s uid code rating notes).store.users = s.users ∧
    (putWishlistHandler s uid code rating notes).store.wishlist.length =
      s.wishlist.length ∧
    (∀ i, ∀ hi : i < s.wishlist.length, ∀ hj :
        i < (putWishlistHandler s uid code rating notes).store.wishlist.length,
      let r := s.wishlist.get ⟨i, hi⟩
      let r2 := (putWishlistHandler s uid code rating notes).store.wishlist.get ⟨i, hj⟩
      r2.id = r.id ∧ r2.user_id = r.user_id ∧ r2.country_code = r.country_code ∧
      r2.country_name = r.country_name ∧ r2.added_date = r.added_date ∧
      (wmatch uid code r = true → r2.rating = rating ∧ r2.notes = notes) ∧
      (wmatch uid code r = false → r2 = r)) := by
  refine ⟨rfl, rfl, List.length_map _ _, ?_⟩
  intro i hi hj
  intro r r2
  have hr2 : r2 = if wmatch uid code r then { r with rating := rating, notes := notes }
      else r := by
    show (s.wishlist.map _).get ⟨i, hj⟩ = _
    rw [List.get_eq_getElem, List.getElem_map]
    rfl
  by_cases hm : wmatch uid code r = true
  · rw [hm, if_pos rfl] at hr2
    rw [hr2]
    exact ⟨rfl, rfl, rfl, rfl, rfl, fun _ => ⟨rfl, rfl⟩,
      fun hf => absurd hm (by rw [hf]; exact Bool.false_ne_true)⟩
  · rw [Bool.not_eq_true] at hm
    rw [hm, if_neg Bool.false_ne_true] at hr2
    rw [hr2]
    exact ⟨rfl, rfl, rfl, rfl, rfl, fun ht => absurd ht (by rw [hm]; exact Bool.false_ne_true),
      fun _ => rfl⟩

/-- C5 witness: updating (1, FR) in the demo store sets the matching row's
rating to 4 while keeping its country_code. -/
theorem put_updates_only_matching_witness :
    ((putWishlistHandler demoStore 1 "FR" (some 4) (some "soon")).store.wishlist.get
      ⟨0, by decide⟩).rating = some 4 ∧
    ((putWishlistHandler demoStore 1 "FR" (some 4) (some "soon")).store.wishlist.get
      ⟨0, by decide⟩).country_code = "FR" :=
  have h := (put_updates_only_matching demoStore 1 "FR" (some 4) (some "soon")).2.2.2 0
    (by decide) (by decide)
  ⟨(h.2.2.2.2.2.1 (by decide)).1, h.2.2.1⟩

/-- C6: whenever a wishlist write statement or the user INSERT reports a
database failure, the handler answers 400 carrying exactly that message and
leaves the store as it was; the UPDATE and DELETE statements never report a
failure in this model, so the rule holds vacuously for them. -/
theorem write_failure_gives_400 (s : Store) (uid : Nat) (b : PostWishBody) (now : Nat)
    (code : String) (rating : Option Int) (notes : Option String)
    (username email : String) (n2 : Nat) :
    (∀ e, runInsertWish s uid b now = Except.error e →
      (postWishlistHandler s uid b now).status = 400 ∧
      (postWishlistHandler s uid b now).body = Except.error e ∧
      (postWishlistHandler s uid b now).store = s) ∧
    (∀ e, runInsertUser s username email n2 = Except.error e →
      (postUserHandler s username email n2).status = 400 ∧
      (postUserHandler s username email n2).body = Except.error e ∧
      (postUserHandler s username email n2).store = s) ∧
    (∀ e, runUpdateWish s uid code rating notes ≠ Except.error e) ∧
    (∀ e, runDeleteWish s uid code ≠ Except.error e) := by
  refine ⟨fun e he => ?_, fun e he => ?_, fun e he => ?_, fun e he => ?_⟩
  · unfold postWishlistHandler
    rw [he]
    exact ⟨rfl, rfl, rfl⟩
  · unfold postUserHandler
    rw [he]
    exact ⟨rfl, rfl, rfl⟩
  · exact absurd he (by unfold runUpdateWish; exact fun hc => Except.noConfusion hc)
  · exact absurd he (by unfold runDeleteWish; exact fun hc => Except.noConfusion hc)

/-- C6 witness: re-posting (1, FR) and re-creating the demo user in the
demo store both answer 400 with the database message, store untouched. -/
theorem write_failure_gives_400_witness :
    (postWishlistHandler demoStore 1 ⟨"FR", "France", none, none⟩ 9).status = 400 ∧
    (postUserHandler demoStore "demo" "x@y.z" 9).status = 400 ∧
    (postUserHandler demoStore "demo" "x@y.z" 9).store = demoStore :=
  have h := write_failure_gives_400 demoStore 1 ⟨"FR", "France", none, none⟩ 9
    "FR" none none "demo" "x@y.z" 9
  have h1 := h.1 "UNIQUE constraint failed: wishlist.user_id, wishlist.country_code"
    (by rfl)
  have h2 := h.2.1 "UNIQUE constraint failed: users.username" (by rfl)
  ⟨h1.1, h2.1, h2.2.2⟩

/-- `db.get` on a table with pairwise-distinct ids finds exactly the
matching row. -/
theorem find_user_of_distinct_ids (id : Nat) :
    ∀ l : List UserRow, l.Pairwise (fun a b => a.id ≠ b.id) →
    ∀ u, u ∈ l → u.id = id → l.find? (fun x => x.id == id) = some u := by
  intro l
  induction l with
  | nil => intro _ u hu; cases hu
  | cons v t ih =>
      intro hl u hu hid
      by_cases hv : v.id = id
      · rw [List.find?_cons_of_pos _ (by simpa using hv)]
        rcases List.mem_cons.mp hu with h1 | h2
        · rw [h1]
        · exact (absurd (hv.trans hid.symm) ((List.pairwise_cons.mp hl).1 u h2) : False).elim
      · rw [List.find?_cons_of_neg _ (by simpa using hv)]
        have hne : u ≠ v := fun hq => hv (hq ▸ hid)
        exact ih (List.pairwise_cons.mp hl).2 u
          ((List.mem_cons.mp hu).resolve_left hne) hid

/-- C7: GET /api/users/:id answers 200 without touching the store; when the
ids in the table are distinct it answers the row whose id matches, and the
empty object exactly when no row matches. -/
theorem get_user_row_or_empty (s : Store) (id : Nat)
    (hids : s.users.Pairwise (fun a b => a.id ≠ b.id)) :
    (getUserHandler s id).status = 200 ∧
    (getUserHandler s id).store = s ∧
    ((getUserHandler s id).body = Except.ok none ↔ ∀ u ∈ s.users, u.id ≠ id) ∧
    (∀ u ∈ s.users, u.id = id → (getUserHandler s id).body = Except.ok (some u)) := by
  refine ⟨rfl, rfl, ?_, ?_⟩
  · show Except.ok (selectUser s id) = Except.ok none ↔ _
    unfold selectUser
    constructor
    · intro he u hu
      have := List.find?_eq_none.mp (Except.ok.inj he) u hu
      simpa using this
    · intro hall
      rw [List.find?_eq_none.mpr (fun u hu => by simpa using hall u hu)]
  · intro u hu hid
    show Except.ok (selectUser s id) = _
    unfold selectUser
    rw [find_user_of_distinct_ids id s.users hids u hu hid]

/-- C7 witness: in the demo store, GET /api/users/1 answers the demo row
and GET /api/users/2 answers the empty object. -/
theorem get_user_row_or_empty_witness :
    (getUserHandler demoStore 1).body =
      Except.ok (some ⟨1, "demo", "demo@example.com", 0⟩) ∧
    (getUserHandler demoStore 2).body = Except.ok none :=
  ⟨(get_user_row_or_empty demoStore 1 (by simp [demoStore])).2.2.2
      ⟨1, "demo", "demo@example.com", 0⟩ (by decide) rfl,
    (get_user_row_or_empty demoStore 2 (by simp [demoStore])).2.2.1.mpr
      (by decide)⟩

/-- C8: each countries proxy endpoint passes the fetched JSON through with
status 200 on success, and on external failure answers its fixed message:
500 for the full listing, 404 for name search and 404 for region. -/
theorem countries_proxy_passthrough (d name region : String) :
    getCountriesHandler (some d) = ⟨200, Except.ok d⟩ ∧
    getCountriesHandler none = ⟨500, Except.error "Failed to fetch countries"⟩ ∧
    searchCountriesHandler name (some d) = ⟨200, Except.ok d⟩ ∧
    searchCountriesHandler name none = ⟨404, Except.error "Country not found"⟩ ∧
    regionCountriesHandler region (some d) = ⟨200, Except.ok d⟩ ∧
    regionCountriesHandler region none = ⟨404, Except.error "Region not found"⟩ :=
  ⟨rfl, rfl, rfl, rfl, rfl, rfl⟩

/-- C9: a PUT whose (user id, country code) pair matches no row answers
200 with `{ updated: 0 }` and leaves the store exactly as it was. -/
theorem put_missing_reports_zero (s : Store) (uid : Nat) (code : String)
    (rating : Option Int) (notes : Option String)
    (h : ∀ r ∈ s.wishlist, wmatch uid code r = false) :
    putWishlistHandler s uid code rating notes = ⟨200, Except.ok 0, s⟩ := by
  unfold putWishlistHandler runUpdateWish
  have hmap : s.wishlist.map (fun r =>
      if wmatch uid code r then { r with rating := rating, notes := notes } else r) =
      s.wishlist := by
    have h2 : ∀ r ∈ s.wishlist,
        (if wmatch uid code r then { r with rating := rating, notes := notes } else r) =
          id r :=
      fun r hr => by rw [h r hr, if_neg Bool.false_ne_true]; rfl
    rw [List.map_congr_left h2, List.map_id]
  have hgone : s.wishlist.filter (wmatch uid code) = [] :=
    List.filter_eq_nil_iff.mpr (fun r hr => by rw [h r hr]; exact Bool.false_ne_true)
  simp only [hmap, hgone, List.length_nil]

/-- C9 witness: updating the absent pair (1, JP) in the demo store answers
`{ updated: 0 }` without touching the store. -/
theorem put_missing_reports_zero_witness :
    putWishlistHandler demoStore 1 "JP" (some 5) (some "n") =
      ⟨200, Except.ok 0, demoStore⟩ :=
  put_missing_reports_zero demoStore 1 "JP" (some 5) (some "n")
    (by intro r hr; simp only [demoStore, List.mem_singleton] at hr; rw [hr]; rfl)

/-- Once the demo seed row is present, another initialization run is the
identity. -/
theorem initDb_of_hasDemo (s : Store) (n : Nat) (h : hasDemo s = true) :
    initDb s n = s := by
  unfold initDb
  rw [if_pos h]

/-- Initialization always leaves the store with the demo seed present. -/
theorem hasDemo_initDb (s : Store) (n : Nat) : hasDemo (initDb s n) = true := by
  unfold initDb
  by_cases h : hasDemo s = true
  · rw [if_pos h]; exact h
  · rw [Bool.not_eq_true] at h
    rw [if_neg (by rw [h]; exact Bool.false_ne_true)]
    unfold hasDemo
    rw [List.any_append]
    simp

/-- Repeated initialization of a store that already has the seed is the
identity. -/
theorem initMany_of_hasDemo (s : Store) (h : hasDemo s = true) :
    ∀ ns : List Nat, initMany s ns = s := by
  intro ns
  induction ns with
  | nil => rfl
  | cons k ks ih =>
      show initMany (initDb s k) ks = s
      rw [initDb_of_hasDemo s k h]
      exact ih

/-- C10: schema initialization is idempotent — a second run (at any later
time) changes nothing, a run never touches the wishlist table, and however
many times initialization runs on a fresh database there is exactly one
demo seed row. -/
theorem init_idempotent (s : Store) (n m : Nat) (ns : List Nat) :
    initDb (initDb s n) m = initDb s n ∧
    (initDb s n).wishlist = s.wishlist ∧
    demoCount (initMany emptyStore (n :: ns)) = 1 := by
  refine ⟨initDb_of_hasDemo _ m (hasDemo_initDb s n), ?_, ?_⟩
  · unfold initDb
    by_cases h : hasDemo s = true
    · rw [if_pos h]
    · rw [Bool.not_eq_true] at h
      rw [if_neg (by rw [h]; exact Bool.false_ne_true)]
  · show demoCount (initMany (initDb emptyStore n) ns) = 1
    rw [initMany_of_hasDemo _ (hasDemo_initDb emptyStore n) ns]
    unfold initDb
    rw [if_neg (by unfold hasDemo emptyStore; simp)]
    rfl

end CountriesApp
